import Mathlib

/-!
Verification of the signature-suite composition and proof-protocol engine of
`ledger-common` against its natural-language specification.

The registry, the composite suite and the credential builder are translated
from `src/proof/signaturesuite.go` and `src/credential/builder.go`.  Parts of
the repository that are referenced but not present under `src/` (the
`LDSignatureSuite` Sign/Verify algorithms, the `Proof` model-version
inference, the `GetSuiteForCredentials` lookup, the `Metadata` record and the
external validation/serialization collaborators) are modelled from the
specification; each such definition says so in its doc comment.
-/

/-- Closed enumeration of signature types (spec section 3; the `SignatureType`
constants of the `proof` package). -/
inductive SignatureType where
  | JCSEdSignatureType
  | WorkEdSignatureType
  | Ed25519SignatureType
  | EcdsaSecp256k1SignatureType
deriving DecidableEq, Inhabited

/-- Proof model versions: V1 proofs use `creator`, V2 use `verificationMethod`. -/
inductive ModelVersion where
  | V1
  | V2
deriving DecidableEq, Inhabited

/-- Asymmetric key families a suite expects. -/
inductive KeyType where
  | Ed25519KeyType
  | EcdsaSecp256k1KeyType
deriving DecidableEq, Inhabited

/-- The proof-shape factories used by the suites in `signaturesuite.go`:
`proofFactoryV1` produces proofs carrying `creator`, `proofFactoryV2` proofs
carrying `verificationMethod`. -/
inductive ProofFactoryKind where
  | proofFactoryV1
  | proofFactoryV2
deriving DecidableEq, Inhabited

/-- The canonicalizer strategies appearing in `signaturesuite.go` (only the
JCS canonicalizer is ever used; a `none` field models a nil canonicalizer). -/
inductive CanonicalizerKind where
  | JCSCanonicalizer
deriving DecidableEq, Inhabited

/-- The marshaling strategies of `signaturesuite.go`: embed the (unsigned)
proof in the serialized bytes, or strip the proof before serialization. -/
inductive MarshalerKind where
  | EmbeddedProofMarshaler
  | WithoutProofMarshaler
deriving DecidableEq, Inhabited

/-- The message-digest strategies: a `none` field is the identity transform,
`Base64Encoder` is the text-safe re-encoding used by credential proofs. -/
inductive MessageDigestKind where
  | Base64Encoder
deriving DecidableEq, Inhabited

/-- The options-augmentation strategies: `NonceAppender` injects a fresh
random nonce; a `none` field means no augmentation. -/
inductive OptionsAppenderKind where
  | NonceAppender
deriving DecidableEq, Inhabited

/-- The strategy configuration of an `LDSignatureSuite` value, as declared in
`signaturesuite.go` (nil interface fields become `none`). -/
structure LDSignatureSuite where
  SignatureType : SignatureType
  KeyType : KeyType
  ProofFactory : ProofFactoryKind
  Canonicalizer : Option CanonicalizerKind
  Marshaler : MarshalerKind
  MessageDigest : Option MessageDigestKind
  OptionsAppender : Option OptionsAppenderKind
deriving DecidableEq, Inhabited

/-- The `SignatureSuite` interface: its implementations in the repository are
`LDSignatureSuite` and `compositeSignatureSuite` (`Main`/`Backup` wrapper). -/
inductive SignatureSuite where
  | ld (s : LDSignatureSuite)
  | composite (Main Backup : SignatureSuite)
deriving DecidableEq, Inhabited

/-- `LDSignatureSuite.Type()` returns the suite's signature type (trivial
accessor; the method body is not under `src/`, its behavior is fixed by the
registry's use of the `SignatureType` field). -/
def LDSignatureSuite.TypeOf (s : LDSignatureSuite) :=
  s.SignatureType

/-- `Type()` of a suite: a composite suite reports its `Main` suite's type
(`compositeSignatureSuite.Type` in `signaturesuite.go`). -/
def SignatureSuite.TypeOf : SignatureSuite → SignatureType
  | .ld s => s.TypeOf
  | .composite m _ => m.TypeOf

/-- `withAndWithoutCanonicalizer`: composite suite whose backup is a copy of
the given suite with the canonicalizer removed (`signaturesuite.go`). -/
def withAndWithoutCanonicalizer (suite : LDSignatureSuite) : SignatureSuite :=
  .composite (.ld suite) (.ld { suite with Canonicalizer := none })

/-- `withV2Proofs`: copy of the suite with a ProofFactory producing version 2
proofs (`signaturesuite.go`). -/
def withV2Proofs (suite : LDSignatureSuite) : LDSignatureSuite :=
  { suite with ProofFactory := .proofFactoryV2 }

/-- `withB64Digest`: copy of the suite with a base64 message digest
(`signaturesuite.go`). -/
def withB64Digest (suite : LDSignatureSuite) : LDSignatureSuite :=
  { suite with MessageDigest := some .Base64Encoder }

/-- The `jcsEd25519SignatureSuite` package-level value of `signaturesuite.go`
(general JCS signatures; note: no message digest, no options appender). -/
def jcsEd25519SignatureSuite : LDSignatureSuite :=
  { SignatureType := .JCSEdSignatureType
    KeyType := .Ed25519KeyType
    ProofFactory := .proofFactoryV2
    Canonicalizer := some .JCSCanonicalizer
    Marshaler := .EmbeddedProofMarshaler
    MessageDigest := none
    OptionsAppender := none }

/-- The base `LDSignatureSuite` literal from which `workSignatureSuiteV1` is
built in `signaturesuite.go` (its `Main.(*LDSignatureSuite)` value, which the
other Work variants are derived from). -/
def workSignatureSuiteV1Base : LDSignatureSuite :=
  { SignatureType := .WorkEdSignatureType
    KeyType := .Ed25519KeyType
    ProofFactory := .proofFactoryV1
    Canonicalizer := some .JCSCanonicalizer
    Marshaler := .WithoutProofMarshaler
    MessageDigest := none
    OptionsAppender := some .NonceAppender }

/-- `workSignatureSuiteV1` from `signaturesuite.go`. -/
def workSignatureSuiteV1 : SignatureSuite :=
  withAndWithoutCanonicalizer workSignatureSuiteV1Base

/-- `workSignatureSuiteV2` from `signaturesuite.go`. -/
def workSignatureSuiteV2 : SignatureSuite :=
  withAndWithoutCanonicalizer (withV2Proofs workSignatureSuiteV1Base)

/-- `workSignatureSuiteV1B64` from `signaturesuite.go`. -/
def workSignatureSuiteV1B64 : SignatureSuite :=
  withAndWithoutCanonicalizer (withB64Digest workSignatureSuiteV1Base)

/-- `workSignatureSuiteV2B64` from `signaturesuite.go`. -/
def workSignatureSuiteV2B64 : SignatureSuite :=
  withAndWithoutCanonicalizer (withV2Proofs (withB64Digest workSignatureSuiteV1Base))

/-- The base `LDSignatureSuite` literal from which `ed25519SignatureSuiteV1`
is built in `signaturesuite.go`. -/
def ed25519SignatureSuiteV1Base : LDSignatureSuite :=
  { SignatureType := .Ed25519SignatureType
    KeyType := .Ed25519KeyType
    ProofFactory := .proofFactoryV1
    Canonicalizer := some .JCSCanonicalizer
    Marshaler := .WithoutProofMarshaler
    MessageDigest := none
    OptionsAppender := some .NonceAppender }

/-- `ed25519SignatureSuiteV1` from `signaturesuite.go`. -/
def ed25519SignatureSuiteV1 : SignatureSuite :=
  withAndWithoutCanonicalizer ed25519SignatureSuiteV1Base

/-- `ed25519SignatureSuiteV2` from `signaturesuite.go`. -/
def ed25519SignatureSuiteV2 : SignatureSuite :=
  withAndWithoutCanonicalizer (withV2Proofs ed25519SignatureSuiteV1Base)

/-- `ed25519SignatureSuiteV1B64` from `signaturesuite.go`. -/
def ed25519SignatureSuiteV1B64 : SignatureSuite :=
  withAndWithoutCanonicalizer (withB64Digest ed25519SignatureSuiteV1Base)

/-- `ed25519SignatureSuiteV2B64` from `signaturesuite.go`. -/
def ed25519SignatureSuiteV2B64 : SignatureSuite :=
  withAndWithoutCanonicalizer (withV2Proofs (withB64Digest ed25519SignatureSuiteV1Base))

/-- `secp256K1SignatureSuite` from `signaturesuite.go`. -/
def secp256K1SignatureSuite : LDSignatureSuite :=
  { SignatureType := .EcdsaSecp256k1SignatureType
    KeyType := .EcdsaSecp256k1KeyType
    ProofFactory := .proofFactoryV1
    Canonicalizer := some .JCSCanonicalizer
    Marshaler := .WithoutProofMarshaler
    MessageDigest := none
    OptionsAppender := some .NonceAppender }

/-- The `SignatureSuiteFactory` struct of `signaturesuite.go`. -/
structure SignatureSuiteFactory where
  JCSEd25519 : SignatureSuite
  WorkEd25519 : SignatureSuite
  WorkEd25519v2 : SignatureSuite
  Ed25519 : SignatureSuite
  Ed25519v2 : SignatureSuite
  Secp256k1 : SignatureSuite
deriving DecidableEq, Inhabited

/-- `SignatureSuiteFactory.getSuiteV1`: the V1 general table; the switch
default returns nil, modelled as `none`. -/
def SignatureSuiteFactory.getSuiteV1 (f : SignatureSuiteFactory) :
    SignatureType → Option SignatureSuite
  | .EcdsaSecp256k1SignatureType => some f.Secp256k1
  | .WorkEdSignatureType => some f.WorkEd25519
  | .Ed25519SignatureType => some f.Ed25519
  | _ => none

/-- `SignatureSuiteFactory.getSuiteV2`: the V2 general table. -/
def SignatureSuiteFactory.getSuiteV2 (f : SignatureSuiteFactory) :
    SignatureType → Option SignatureSuite
  | .JCSEdSignatureType => some f.JCSEd25519
  | .WorkEdSignatureType => some f.WorkEd25519v2
  | .Ed25519SignatureType => some f.Ed25519v2
  | _ => none

/-- `SignatureSuiteFactory.GetSuite`: dispatch on the model version, then
return an "unsupported signature type" error when the table lookup was nil. -/
def SignatureSuiteFactory.GetSuite (f : SignatureSuiteFactory)
    (signatureType : SignatureType) (modelVersion : ModelVersion) :
    Except String SignatureSuite :=
  let suite : Option SignatureSuite :=
    match modelVersion with
    | .V1 => f.getSuiteV1 signatureType
    | .V2 => f.getSuiteV2 signatureType
  match suite with
  | none => .error "unsupported signature type"
  | some s => .ok s

/-- `SignatureSuiteFactory.getSuiteV1Cred`: the V1 credential-proof table. -/
def SignatureSuiteFactory.getSuiteV1Cred (_f : SignatureSuiteFactory) :
    SignatureType → Option SignatureSuite
  | .Ed25519SignatureType => some ed25519SignatureSuiteV1B64
  | .WorkEdSignatureType => some workSignatureSuiteV1B64
  | _ => none

/-- `SignatureSuiteFactory.getSuiteV2Cred`: the V2 credential-proof table. -/
def SignatureSuiteFactory.getSuiteV2Cred (_f : SignatureSuiteFactory) :
    SignatureType → Option SignatureSuite
  | .Ed25519SignatureType => some ed25519SignatureSuiteV2B64
  | .WorkEdSignatureType => some workSignatureSuiteV2B64
  | .JCSEdSignatureType => some jcsEd25519SignatureSuite |>.map SignatureSuite.ld
  | _ => none

/-- `SignatureSuites()`: the process-wide registry value of
`signaturesuite.go`. -/
def SignatureSuites : SignatureSuiteFactory :=
  { JCSEd25519 := .ld jcsEd25519SignatureSuite
    WorkEd25519 := workSignatureSuiteV1
    WorkEd25519v2 := workSignatureSuiteV2
    Ed25519 := ed25519SignatureSuiteV1
    Ed25519v2 := ed25519SignatureSuiteV2
    Secp256k1 := .ld secp256K1SignatureSuite }

/-- The supported (signatureType, modelVersion) pairs as listed by the
specification (section 8): JCSEd25519 at V2 only, WorkEd25519 and Ed25519 at
both versions, EcdsaSecp256k1 at V1 only. -/
def supportedPair : SignatureType → ModelVersion → Bool
  | .JCSEdSignatureType, .V2 => true
  | .WorkEdSignatureType, _ => true
  | .Ed25519SignatureType, _ => true
  | .EcdsaSecp256k1SignatureType, .V1 => true
  | _, _ => false

/-- C1: for every supported pair, `GetSuite` on the registry returns a suite
whose `Type()` equals the requested signature type; for every other pair it
returns the "unsupported signature type" error and no suite. -/
theorem getSuite_total_explicit (t : SignatureType) (v : ModelVersion) :
    (SignatureSuiteFactory.GetSuite SignatureSuites t v).map SignatureSuite.TypeOf =
      (if supportedPair t v then Except.ok t else Except.error "unsupported signature type") := by
  cases t <;> cases v <;> rfl

/-- The Proof record (spec sections 3 and 6): signature metadata with exactly
the wire-shape fields `type`, `created`, `nonce`, `signatureValue` and one of
`creator` / `verificationMethod`.  The key-reference fields are optional so
that malformed proofs (both or neither present) are representable. -/
structure Proof where
  type : SignatureType
  created : String
  creator : Option String
  verificationMethod : Option String
  nonce : String
  signatureValue : String
deriving DecidableEq, Inhabited

/-- Modelled from the spec: `Proof.ModelVersion()` is not under `src/`.  Per
spec section 3 the presence of `verificationMethod` rather than `creator` is
the sole signal of the model version, and the inference must reject proofs
carrying both or neither field rather than guessing; rejection is modelled as
`none`, which the registry lookups below turn into their error result. -/
def Proof.ModelVersionInferred (p : Proof) : Option ModelVersion :=
  match p.creator, p.verificationMethod with
  | some _, none => some .V1
  | none, some _ => some .V2
  | _, _ => none

/-- `SignatureSuiteFactory.GetSuiteForProof`: delegates to `GetSuite` with
the proof's inferred model version; a rejected inference falls outside the
V1/V2 dispatch and surfaces as the "unsupported signature type" error. -/
def SignatureSuiteFactory.GetSuiteForProof (f : SignatureSuiteFactory)
    (p : Proof) : Except String SignatureSuite :=
  match p.ModelVersionInferred with
  | some v => f.GetSuite p.type v
  | none => .error "unsupported signature type"

/-- `SignatureSuiteFactory.GetSuiteForCredentialProof`: the credential-proof
lookup of `signaturesuite.go`, dispatching the inferred model version over
the credential tables; a nil suite becomes the "unsupported signature type"
error. -/
def SignatureSuiteFactory.GetSuiteForCredentialProof (f : SignatureSuiteFactory)
    (p : Proof) : Except String SignatureSuite :=
  let suite : Option SignatureSuite :=
    match p.ModelVersionInferred with
    | some .V1 => f.getSuiteV1Cred p.type
    | some .V2 => f.getSuiteV2Cred p.type
    | none => none
  match suite with
  | none => .error "unsupported signature type"
  | some s => .ok s

/-- Modelled from the spec: `GetSuiteForCredentials(signatureType,
modelVersion)` is called by `Builder.Build` but is not under `src/`.  Per
spec section 4.5 it resolves the signing suite for (signature type, model
version) via the credential-proof registry, i.e. the same credential tables
used by `GetSuiteForCredentialProof`, with the same error on a nil suite. -/
def SignatureSuiteFactory.GetSuiteForCredentials (f : SignatureSuiteFactory)
    (signatureType : SignatureType) (modelVersion : ModelVersion) :
    Except String SignatureSuite :=
  let suite : Option SignatureSuite :=
    match modelVersion with
    | .V1 => f.getSuiteV1Cred signatureType
    | .V2 => f.getSuiteV2Cred signatureType
  match suite with
  | none => .error "unsupported signature type"
  | some s => .ok s

/-- A suite carries the base64 text-safe message digest on every
`LDSignatureSuite` it is built from (for a composite suite: both `Main` and
`Backup`). -/
def usesB64Digest : SignatureSuite → Bool
  | .ld s => s.MessageDigest = some .Base64Encoder
  | .composite m b => usesB64Digest m && usesB64Digest b

/-- C8: a proof carrying both key-reference fields, or neither, is rejected
by the model-version inference, and therefore by both `GetSuiteForProof` and
`GetSuiteForCredentialProof`, rather than being defaulted to V1 or V2. -/
theorem ambiguous_proof_rejected (p : Proof)
    (h : (p.creator.isSome ∧ p.verificationMethod.isSome) ∨
         (p.creator = none ∧ p.verificationMethod = none)) :
    p.ModelVersionInferred = none ∧
    SignatureSuiteFactory.GetSuiteForProof SignatureSuites p =
      .error "unsupported signature type" ∧
    SignatureSuiteFactory.GetSuiteForCredentialProof SignatureSuites p =
      .error "unsupported signature type" := by
  have hinf : p.ModelVersionInferred = none := by
    rcases h with ⟨h1, h2⟩ | ⟨h1, h2⟩
    · rcases p with ⟨t, cr, c, vm, n, sv⟩
      cases c <;> cases vm <;> simp_all [Proof.ModelVersionInferred]
    · rcases p with ⟨t, cr, c, vm, n, sv⟩
      cases c <;> cases vm <;> simp_all [Proof.ModelVersionInferred]
  refine ⟨hinf, ?_, ?_⟩
  · simp [SignatureSuiteFactory.GetSuiteForProof, hinf]
  · simp [SignatureSuiteFactory.GetSuiteForCredentialProof, hinf]

/-- Witness for `ambiguous_proof_rejected` at a concrete proof carrying both
`creator` and `verificationMethod`. -/
theorem ambiguous_proof_rejected_witness :
    SignatureSuiteFactory.GetSuiteForProof SignatureSuites
      { type := .Ed25519SignatureType, created := "2020-01-01T00:00:00Z",
        creator := some "did:work:abc-key-1",
        verificationMethod := some "did:work:abc-key-1",
        nonce := "n", signatureValue := "sv" } =
      .error "unsupported signature type" :=
  (ambiguous_proof_rejected
      { type := .Ed25519SignatureType, created := "2020-01-01T00:00:00Z",
        creator := some "did:work:abc-key-1",
        verificationMethod := some "did:work:abc-key-1",
        nonce := "n", signatureValue := "sv" }
      (Or.inl ⟨rfl, rfl⟩)).2.1

/-- A concrete JCSEd25519 V2 proof (carries `verificationMethod` only), which
the credential-proof lookup accepts. -/
def jcsV2CredProof : Proof :=
  { type := .JCSEdSignatureType, created := "2020-01-01T00:00:00Z",
    creator := none, verificationMethod := some "did:work:abc-key-1",
    nonce := "n", signatureValue := "sv" }

/-- C6 counterexample: `GetSuiteForCredentialProof` accepts a JCSEd25519 V2
proof but returns the `jcsEd25519SignatureSuite`, which carries no message
digest at all (identity transform), not the base64 variant. -/
theorem credential_proof_digest_counterexample :
    SignatureSuiteFactory.GetSuiteForCredentialProof SignatureSuites jcsV2CredProof =
      .ok (.ld jcsEd25519SignatureSuite) ∧
    usesB64Digest (.ld jcsEd25519SignatureSuite) = false := by
  exact ⟨rfl, rfl⟩

/-- C6 as amended: for every proof accepted by `GetSuiteForCredentialProof`,
if its signature type is not JCSEd25519 the returned (composite) suite
carries the base64 digest on both `Main` and `Backup`; for JCSEd25519 the
returned suite is the plain `jcsEd25519SignatureSuite`, which uses the
identity digest. -/
theorem credential_proof_digest (p : Proof) (s : SignatureSuite)
    (h : SignatureSuiteFactory.GetSuiteForCredentialProof SignatureSuites p = .ok s) :
    (p.type ≠ .JCSEdSignatureType → usesB64Digest s = true) ∧
    (p.type = .JCSEdSignatureType →
      s = .ld jcsEd25519SignatureSuite ∧ usesB64Digest s = false) := by
  rcases hmv : p.ModelVersionInferred with _ | v
  · simp [SignatureSuiteFactory.GetSuiteForCredentialProof, hmv] at h
  · rcases ht : p.type with _ | _ | _ | _ <;> cases v <;>
      simp [SignatureSuiteFactory.GetSuiteForCredentialProof, hmv, ht,
        SignatureSuiteFactory.getSuiteV1Cred,
        SignatureSuiteFactory.getSuiteV2Cred] at h <;>
      subst h <;> simp [ht] <;> decide

/-- A concrete Ed25519 V2 proof accepted by the credential-proof lookup. -/
def ed25519V2CredProof : Proof :=
  { type := .Ed25519SignatureType, created := "2020-01-01T00:00:00Z",
    creator := none, verificationMethod := some "did:work:abc-key-1",
    nonce := "n", signatureValue := "sv" }

/-- Witness for `credential_proof_digest` at a concrete Ed25519 V2 proof. -/
theorem credential_proof_digest_witness :
    usesB64Digest ed25519SignatureSuiteV2B64 = true :=
  (credential_proof_digest ed25519V2CredProof ed25519SignatureSuiteV2B64 rfl).1
    (by decide)

/-- A composite suite made of two `LDSignatureSuite` values is well-formed
when `Type()` reports the `Main` type, both components agree on signature
type, and `Backup` is exactly `Main` with the canonicalizer removed. -/
def compositeWellFormedB : SignatureSuite → Bool
  | .composite (.ld m) (.ld b) =>
      decide (SignatureSuite.TypeOf (.composite (.ld m) (.ld b)) = m.SignatureType) &&
      decide (m.SignatureType = b.SignatureType) &&
      decide (b = { m with Canonicalizer := none })
  | .composite _ _ => false
  | .ld _ => true

/-- A registry lookup result is composite-well-formed when it is an error or
a suite satisfying `compositeWellFormedB`. -/
def registryCompositeOk (e : Except String SignatureSuite) : Bool :=
  match e with
  | .ok s => compositeWellFormedB s
  | .error _ => true

/-- C7: `withAndWithoutCanonicalizer` builds exactly the composite whose
`Type()` is the `Main` type and whose `Backup` is the `Main` configuration
with the canonicalizer erased; and every suite reachable from the registry
(general tables and credential tables alike) satisfies this invariant. -/
theorem composite_suite_invariants :
    (∀ s : LDSignatureSuite,
        (withAndWithoutCanonicalizer s).TypeOf = s.SignatureType ∧
        withAndWithoutCanonicalizer s =
          .composite (.ld s) (.ld { s with Canonicalizer := none })) ∧
    (∀ t v,
        registryCompositeOk (SignatureSuiteFactory.GetSuite SignatureSuites t v) = true ∧
        registryCompositeOk
          (SignatureSuiteFactory.GetSuiteForCredentials SignatureSuites t v) = true) := by
  refine ⟨fun s => ⟨rfl, rfl⟩, fun t v => ?_⟩
  cases t <;> cases v <;> exact ⟨rfl, rfl⟩

/-- Caller-supplied proof options (spec section 4.1; `proof.ProofOptions` in
the builder).  The wire shape of a proof (spec section 6) has no purpose
field, so the purpose does not land on the recorded proof. -/
structure ProofOptions where
  ProofPurpose : String
deriving DecidableEq, Inhabited

/-- `proof.AssertionMethodPurpose`, the purpose the builder passes. -/
def AssertionMethodPurpose : String := "assertionMethod"

/-- Modelled from the spec: the external Signer capability (spec section 6):
`sign(keyType, signatureType, digestBytes) -> signatureBytes | error`, plus
the key identifier that the proof-shape factories record as the proof's key
reference. -/
structure Signer where
  keyId : String
  sign : KeyType → SignatureType → String → Except String String

/-- Modelled from the spec: the external Verifier capability (spec section
6): `verify(keyReference, signatureType, digestBytes, signatureBytes)`. -/
structure Verifier where
  verify : String → SignatureType → String → String → Except String Unit

/-- Modelled from the spec: a Provable document (spec section 3) together
with the external byte-level collaborators a suite consumes (spec section 6).
`serialize` is the underlying JSON marshaling of the document as-is,
`jcsCanon` the external JCS canonicalization, `b64` the external base64
re-encoding, `now` the creation timestamp and `freshNonce` the randomness the
nonce appender would inject for this call.  The two laws state that the proof
slot behaves as a mutable field. -/
structure ProvableInst (D : Type) where
  getProof : D → Option Proof
  setProof : D → Option Proof → D
  serialize : D → String
  jcsCanon : String → String
  b64 : String → String
  now : String
  freshNonce : String
  get_set : ∀ d p, getProof (setProof d p) = p
  set_set : ∀ d p q, setProof (setProof d p) q = setProof d q

/-- A proof with its signature value cleared — the "unsigned value" the
embedding marshaler serializes (spec section 6). -/
def unsignProof (p : Proof) : Proof :=
  { p with signatureValue := "" }

/-- Modelled from the spec: the marshaling strategies (spec section 6).  The
strip variant removes the proof before serialization; the embed variant
serializes the document with the unsigned-value proof left in place. -/
def runMarshaler {D : Type} (inst : ProvableInst D) :
    MarshalerKind → D → String
  | .WithoutProofMarshaler, d => inst.serialize (inst.setProof d none)
  | .EmbeddedProofMarshaler, d =>
      inst.serialize (inst.setProof d ((inst.getProof d).map unsignProof))

/-- Modelled from the spec: canonicalization, or pass-through when the suite
has none (spec sections 4.1 and 6). -/
def runCanonicalizer {D : Type} (inst : ProvableInst D) :
    Option CanonicalizerKind → String → String
  | none, bytes => bytes
  | some .JCSCanonicalizer, bytes => inst.jcsCanon bytes

/-- Modelled from the spec: the message digest, identity or base64 text-safe
re-encoding (spec sections 4.1 and 6). -/
def runDigest {D : Type} (inst : ProvableInst D) :
    Option MessageDigestKind → String → String
  | none, bytes => bytes
  | some .Base64Encoder, bytes => inst.b64 bytes

/-- Modelled from the spec: the nonce the options-augmentation strategy adds
(spec sections 4.1 step 2 and 6); without an appender the nonce stays empty. -/
def runOptionsAppender {D : Type} (inst : ProvableInst D) :
    Option OptionsAppenderKind → String
  | none => ""
  | some .NonceAppender => inst.freshNonce

/-- Modelled from the spec: the proof-shape factories (spec section 4.3).
V1 skeletons carry `creator`, V2 skeletons `verificationMethod`; the
signature value starts empty. -/
def makeProofSkeleton (pf : ProofFactoryKind) (t : SignatureType)
    (keyId created nonce : String) : Proof :=
  match pf with
  | .proofFactoryV1 =>
      { type := t, created := created, creator := some keyId,
        verificationMethod := none, nonce := nonce, signatureValue := "" }
  | .proofFactoryV2 =>
      { type := t, created := created, creator := none,
        verificationMethod := some keyId, nonce := nonce, signatureValue := "" }

/-- The key reference a verifier receives: taken from the proof (spec
section 4.1, Verify step). -/
def Proof.keyReference (p : Proof) : String :=
  match p.creator with
  | some c => c
  | none => p.verificationMethod.getD ""

/-- Modelled from the spec: the `LDSignatureSuite` Sign algorithm (spec
section 4.1, steps 1-8; the implementation is not under `src/`): build the
skeleton via the proof factory merged with the options, add the nonce, attach
the skeleton, marshal, canonicalize, digest, invoke the external signer, and
atomically attach the finished proof; any signer failure aborts with no
partial proof attached. -/
def LDSignatureSuite.SignLD {D : Type} (s : LDSignatureSuite)
    (inst : ProvableInst D) (d : D) (signer : Signer) (_options : ProofOptions) :
    Except String D :=
  let skeleton := makeProofSkeleton s.ProofFactory s.SignatureType
    signer.keyId inst.now (runOptionsAppender inst s.OptionsAppender)
  let attached := inst.setProof d (some skeleton)
  let marshaled := runMarshaler inst s.Marshaler attached
  let canonical := runCanonicalizer inst s.Canonicalizer marshaled
  let digest := runDigest inst s.MessageDigest canonical
  match signer.sign s.KeyType s.SignatureType digest with
  | .error e => .error e
  | .ok sig => .ok (inst.setProof d (some { skeleton with signatureValue := sig }))

/-- Modelled from the spec: the `LDSignatureSuite` Verify algorithm (spec
section 4.1): mirror the Sign pipeline using the proof already attached to
the document, then invoke the external verifier with the digest, the proof's
key reference and its signature value. -/
def LDSignatureSuite.VerifyLD {D : Type} (s : LDSignatureSuite)
    (inst : ProvableInst D) (d : D) (verifier : Verifier) :
    Except String Unit :=
  match inst.getProof d with
  | none => .error "missing proof"
  | some p =>
    let marshaled := runMarshaler inst s.Marshaler d
    let canonical := runCanonicalizer inst s.Canonicalizer marshaled
    let digest := runDigest inst s.MessageDigest canonical
    verifier.verify p.keyReference s.SignatureType digest p.signatureValue

/-- Suite-level Sign: an LD suite signs with its own pipeline; a composite
suite always delegates to `Main` (`compositeSignatureSuite.Sign` in
`signaturesuite.go`). -/
def SignatureSuite.SignS {D : Type} (inst : ProvableInst D) :
    SignatureSuite → D → Signer → ProofOptions → Except String D
  | .ld s, d, signer, options => s.SignLD inst d signer options
  | .composite m _, d, signer, options => SignatureSuite.SignS inst m d signer options

/-- Suite-level Verify: an LD suite verifies with its own pipeline; a
composite suite tries `Main` and falls back to `Backup` on failure
(`compositeSignatureSuite.Verify` in `signaturesuite.go`). -/
def SignatureSuite.VerifyS {D : Type} (inst : ProvableInst D) :
    SignatureSuite → D → Verifier → Except String Unit
  | .ld s, d, verifier => s.VerifyLD inst d verifier
  | .composite m b, d, verifier =>
    match SignatureSuite.VerifyS inst m d verifier with
    | .error _ => SignatureSuite.VerifyS inst b d verifier
    | .ok () => .ok ()

/-- C2: the composite `Verify` returns success as soon as `Main` succeeds
(for any backup whatsoever), attempts `Backup` exactly when `Main` fails, and
when both fail the surfaced error is `Backup`'s with `Main`'s discarded. -/
theorem composite_verify_fallback {D : Type} (inst : ProvableInst D)
    (main backup : SignatureSuite) (d : D) (v : Verifier) :
    (SignatureSuite.VerifyS inst main d v = .ok () →
      SignatureSuite.VerifyS inst (.composite main backup) d v = .ok ()) ∧
    (∀ e, SignatureSuite.VerifyS inst main d v = .error e →
      SignatureSuite.VerifyS inst (.composite main backup) d v =
        SignatureSuite.VerifyS inst backup d v) ∧
    (∀ e eb, SignatureSuite.VerifyS inst main d v = .error e →
      SignatureSuite.VerifyS inst backup d v = .error eb →
      SignatureSuite.VerifyS inst (.composite main backup) d v = .error eb) := by
  refine ⟨fun h => ?_, fun e h => ?_, fun e eb h hb => ?_⟩
  · show (match SignatureSuite.VerifyS inst main d v with
      | .error _ => SignatureSuite.VerifyS inst backup d v
      | .ok () => .ok ()) = .ok ()
    rw [h]
  · show (match SignatureSuite.VerifyS inst main d v with
      | .error _ => SignatureSuite.VerifyS inst backup d v
      | .ok () => .ok ()) = SignatureSuite.VerifyS inst backup d v
    rw [h]
  · show (match SignatureSuite.VerifyS inst main d v with
      | .error _ => SignatureSuite.VerifyS inst backup d v
      | .ok () => .ok ()) = .error eb
    rw [h, hb]

/-- Modelled from the spec: the `Metadata` record of the `credential` package
is not under `src/`; spec section 3 and the ledger metadata JSON schema give
its fields (type, model version, id, name, author, authored timestamp, plus
an optional proof). -/
structure Metadata where
  type : String
  modelVersion : String
  id : String
  name : String
  author : String
  authored : String
  proof : Option Proof
deriving DecidableEq, Inhabited

/-- The `VerifiableCredential` document of the `credential` package (spec
section 3): metadata, the claims mapping, the claim-proofs mapping and the
aggregate proof.  The Go embedding of `UnsignedVerifiableCredential` is
flattened; claim values are modelled as strings; the Go maps are modelled as
association lists with unique keys. -/
structure VerifiableCredential where
  Metadata : Metadata
  CredentialSubject : List (String × String)
  ClaimProofs : List (String × Proof)
  Proof : Option Proof
deriving DecidableEq, Inhabited

/-- The external byte-level collaborators for signing credentials (the
serialization, canonicalization, digest, clock and randomness a `Build` run
consumes). -/
structure CredSignEnv where
  serialize : VerifiableCredential → String
  jcsCanon : String → String
  b64 : String → String
  now : String
  freshNonce : String

/-- A `VerifiableCredential` is Provable through its `Proof` field. -/
def credInst (env : CredSignEnv) : ProvableInst VerifiableCredential :=
  { getProof := fun d => d.Proof
    setProof := fun d p => { d with Proof := p }
    serialize := env.serialize
    jcsCanon := env.jcsCanon
    b64 := env.b64
    now := env.now
    freshNonce := env.freshNonce
    get_set := fun _ _ => rfl
    set_set := fun _ _ _ => rfl }

/-- A simple injective-enough encoding of a claims mapping, used by the
concrete witness environments. -/
def encodeKVs : List (String × String) → String
  | [] => ""
  | (k, v) :: rest => k ++ "=" ++ v ++ ";" ++ encodeKVs rest

/-- An empty metadata record for concrete witnesses. -/
def mW : Metadata :=
  { type := "Credential", modelVersion := "1.0", id := "cred-1",
    name := "n", author := "did:work:issuer", authored := "2020-01-01T00:00:00Z",
    proof := none }

/-- A concrete witness environment: serialization records the number of
claim proofs and the claims mapping; canonicalization and base64 are
modelled by concrete identity collaborators. -/
def envW : CredSignEnv :=
  { serialize := fun c => toString c.ClaimProofs.length ++ "|" ++ encodeKVs c.CredentialSubject
    jcsCanon := fun bytes => bytes
    b64 := fun bytes => bytes
    now := "2020-01-02T00:00:00Z"
    freshNonce := "nonce-0" }

/-- A concrete unsigned credential for witnesses. -/
def unsignedVC : VerifiableCredential :=
  { Metadata := mW, CredentialSubject := [("id", "did:work:subject")],
    ClaimProofs := [], Proof := none }

/-- A verifier that accepts everything (used only to exercise control flow). -/
def trivialVerifier : Verifier :=
  { verify := fun _ _ _ _ => .ok () }

/-- Witness for `composite_verify_fallback`: on a document with no attached
proof both components fail, and the composite surfaces the backup's error. -/
theorem composite_verify_fallback_witness :
    SignatureSuite.VerifyS (credInst envW)
      (.composite (.ld jcsEd25519SignatureSuite) (.ld jcsEd25519SignatureSuite))
      unsignedVC trivialVerifier = .error "missing proof" :=
  (composite_verify_fallback (credInst envW) (.ld jcsEd25519SignatureSuite)
      (.ld jcsEd25519SignatureSuite) unsignedVC trivialVerifier).2.2
    "missing proof" "missing proof" rfl rfl

/-- Clearing the signature value of a freshly built skeleton is a no-op. -/
theorem unsignProof_skeleton (pf : ProofFactoryKind) (t : SignatureType)
    (keyId created nonce : String) :
    unsignProof (makeProofSkeleton pf t keyId created nonce) =
      makeProofSkeleton pf t keyId created nonce := by
  cases pf <;> rfl

/-- The key reference recorded by either proof factory is the signer's key
identifier. -/
theorem keyReference_skeleton (pf : ProofFactoryKind) (t : SignatureType)
    (keyId created nonce : String) :
    (makeProofSkeleton pf t keyId created nonce).keyReference = keyId := by
  cases pf <;> rfl

/-- Marshaling a document whose proof slot was just set depends only on the
unsigned value of that proof. -/
theorem runMarshaler_setProof {D : Type} (inst : ProvableInst D)
    (m : MarshalerKind) (d : D) (p : Proof) :
    runMarshaler inst m (inst.setProof d (some p)) =
      (match m with
       | .EmbeddedProofMarshaler =>
           inst.serialize (inst.setProof d (some (unsignProof p)))
       | .WithoutProofMarshaler => inst.serialize (inst.setProof d none)) := by
  cases m
  · show inst.serialize (inst.setProof (inst.setProof d (some p))
        ((inst.getProof (inst.setProof d (some p))).map unsignProof)) = _
    rw [inst.get_set, inst.set_set]
    rfl
  · show inst.serialize (inst.setProof (inst.setProof d (some p)) none) = _
    rw [inst.set_set]

/-- Sign-then-Verify round-trip for a single `LDSignatureSuite`: with a
signer that succeeds and a verifier accepting that signer's signatures under
its key identifier, `SignLD` succeeds and `VerifyLD` accepts the result. -/
theorem ld_sign_verify_roundtrip {D : Type} (s : LDSignatureSuite)
    (inst : ProvableInst D) (d : D) (signer : Signer) (verifier : Verifier)
    (options : ProofOptions)
    (hs : ∀ kt st dg, ∃ sg, signer.sign kt st dg = .ok sg)
    (hv : ∀ kt st dg sg, signer.sign kt st dg = .ok sg →
      verifier.verify signer.keyId st dg sg = .ok ()) :
    ∃ d', s.SignLD inst d signer options = .ok d' ∧
      s.VerifyLD inst d' verifier = .ok () := by
  obtain ⟨sg, hsg⟩ := hs s.KeyType s.SignatureType
    (runDigest inst s.MessageDigest (runCanonicalizer inst s.Canonicalizer
      (runMarshaler inst s.Marshaler (inst.setProof d
        (some (makeProofSkeleton s.ProofFactory s.SignatureType signer.keyId
          inst.now (runOptionsAppender inst s.OptionsAppender)))))))
  refine ⟨inst.setProof d
      (some { makeProofSkeleton s.ProofFactory s.SignatureType signer.keyId
        inst.now (runOptionsAppender inst s.OptionsAppender) with
        signatureValue := sg }), ?_, ?_⟩
  · show (match signer.sign s.KeyType s.SignatureType _ with
      | .error e => Except.error e
      | .ok sig => Except.ok (inst.setProof d
          (some { makeProofSkeleton s.ProofFactory s.SignatureType signer.keyId
            inst.now (runOptionsAppender inst s.OptionsAppender) with
            signatureValue := sig }))) = _
    rw [hsg]
  · show LDSignatureSuite.VerifyLD s inst (inst.setProof d (some _)) verifier = _
    unfold LDSignatureSuite.VerifyLD
    rw [inst.get_set]
    have hm : runMarshaler inst s.Marshaler (inst.setProof d
        (some { makeProofSkeleton s.ProofFactory s.SignatureType signer.keyId
          inst.now (runOptionsAppender inst s.OptionsAppender) with
          signatureValue := sg })) =
        runMarshaler inst s.Marshaler (inst.setProof d
        (some (makeProofSkeleton s.ProofFactory s.SignatureType signer.keyId
          inst.now (runOptionsAppender inst s.OptionsAppender)))) := by
      rw [runMarshaler_setProof, runMarshaler_setProof]
      have hu : unsignProof { makeProofSkeleton s.ProofFactory s.SignatureType
          signer.keyId inst.now (runOptionsAppender inst s.OptionsAppender) with
          signatureValue := sg } =
          unsignProof (makeProofSkeleton s.ProofFactory s.SignatureType
            signer.keyId inst.now (runOptionsAppender inst s.OptionsAppender)) := rfl
      rw [hu, unsignProof_skeleton]
    show verifier.verify _ s.SignatureType _ _ = _
    rw [hm]
    have hk : ({ makeProofSkeleton s.ProofFactory s.SignatureType signer.keyId
        inst.now (runOptionsAppender inst s.OptionsAppender) with
        signatureValue := sg } : Proof).keyReference = signer.keyId := by
      show (makeProofSkeleton s.ProofFactory s.SignatureType signer.keyId
        inst.now (runOptionsAppender inst s.OptionsAppender)).keyReference = _
      exact keyReference_skeleton ..
    rw [hk]
    exact hv _ _ _ _ hsg

/-- Sign-then-Verify round-trip for every suite value: composites sign with
`Main` and their `Verify` accepts via the `Main` path. -/
theorem suite_sign_verify_roundtrip {D : Type} (inst : ProvableInst D)
    (suite : SignatureSuite) (d : D) (signer : Signer) (verifier : Verifier)
    (options : ProofOptions)
    (hs : ∀ kt st dg, ∃ sg, signer.sign kt st dg = .ok sg)
    (hv : ∀ kt st dg sg, signer.sign kt st dg = .ok sg →
      verifier.verify signer.keyId st dg sg = .ok ()) :
    ∃ d', SignatureSuite.SignS inst suite d signer options = .ok d' ∧
      SignatureSuite.VerifyS inst suite d' verifier = .ok () := by
  induction suite generalizing d with
  | ld s => exact ld_sign_verify_roundtrip s inst d signer verifier options hs hv
  | composite m b ihm ihb =>
    obtain ⟨d', h1, h2⟩ := ihm d
    refine ⟨d', h1, ?_⟩
    show (match SignatureSuite.VerifyS inst m d' verifier with
      | .error _ => SignatureSuite.VerifyS inst b d' verifier
      | .ok () => .ok ()) = _
    rw [h2]

/-- C5: for every suite the registry supports and every document, `Sign`
followed by `Verify` on the same document succeeds whenever the signer
succeeds and the verifier matches the signer's key. -/
theorem supported_suite_roundtrip (t : SignatureType) (v : ModelVersion)
    (suite : SignatureSuite)
    (_hsuite : SignatureSuiteFactory.GetSuite SignatureSuites t v = .ok suite)
    {D : Type} (inst : ProvableInst D) (d : D) (signer : Signer)
    (verifier : Verifier) (options : ProofOptions)
    (hs : ∀ kt st dg, ∃ sg, signer.sign kt st dg = .ok sg)
    (hv : ∀ kt st dg sg, signer.sign kt st dg = .ok sg →
      verifier.verify signer.keyId st dg sg = .ok ()) :
    ∃ d', SignatureSuite.SignS inst suite d signer options = .ok d' ∧
      SignatureSuite.VerifyS inst suite d' verifier = .ok () :=
  suite_sign_verify_roundtrip inst suite d signer verifier options hs hv

/-- A concrete signer that always succeeds. -/
def signerRT : Signer :=
  { keyId := "did:work:abc-key-1", sign := fun _ _ dg => .ok ("SIG." ++ dg) }

/-- A concrete verifier matching `signerRT`. -/
def verifierRT : Verifier :=
  { verify := fun keyRef _ dg sg =>
      if keyRef = "did:work:abc-key-1" ∧ sg = "SIG." ++ dg then .ok ()
      else .error "signature check failed" }

/-- Witness for `supported_suite_roundtrip` on the Ed25519 V1 suite with a
concrete document, signer and verifier. -/
theorem supported_suite_roundtrip_witness :
    ∃ d', SignatureSuite.SignS (credInst envW) ed25519SignatureSuiteV1
        unsignedVC signerRT { ProofPurpose := AssertionMethodPurpose } = .ok d' ∧
      SignatureSuite.VerifyS (credInst envW) ed25519SignatureSuiteV1 d'
        verifierRT = .ok () :=
  supported_suite_roundtrip .Ed25519SignatureType .V1 ed25519SignatureSuiteV1
    rfl (credInst envW) unsignedVC signerRT verifierRT
    { ProofPurpose := AssertionMethodPurpose }
    (fun _ _ dg => ⟨"SIG." ++ dg, rfl⟩)
    (fun kt st dg sg h => by
      simp only [signerRT] at h
      rw [Except.ok.injEq] at h
      subst h
      simp [verifierRT, signerRT])

/-- `credential.SubjectIDAttribute`: the "id" claim key. -/
def SubjectIDAttribute : String := "id"

/-- Go-map lookup on an association list (first matching key). -/
def lookupKV {α : Type} : List (String × α) → String → Option α
  | [], _ => none
  | (k', v) :: rest, k => if k' = k then some v else lookupKV rest k

/-- Go-map insertion on an association list: replace the entry in place when
the key exists, append otherwise. -/
def insertKV {α : Type} : List (String × α) → String → α → List (String × α)
  | [], k, v => [(k, v)]
  | (k', v') :: rest, k, v =>
      if k' = k then (k, v) :: rest else (k', v') :: insertKV rest k v

/-- The keys of an association list. -/
def keysOf {α : Type} (m : List (String × α)) : List String :=
  m.map Prod.fst

/-- The `credSubjects` map of `Builder.Build`: start from
`{id: subjectDID}` and copy every data entry over it (so a data entry named
"id" overwrites the subject identifier, as the Go range-and-assign loop
does). -/
def credSubjectsOf (subjectDID : String) (data : List (String × String)) :
    List (String × String) :=
  data.foldl (fun m kv => insertKV m kv.1 kv.2) [(SubjectIDAttribute, subjectDID)]

/-- The `credential.Builder` struct.  `Metadata` and `Signer` are nilable
(pointer and interface); the string `SubjectDID` is required-nonempty. -/
structure Builder where
  SubjectDID : String
  Data : List (String × String)
  Metadata : Option Metadata
  Signer : Option Signer
  SignatureType : SignatureType

/-- The minimal single-claim credential signed for selective disclosure
(`Builder.Build`'s per-claim credential literal). -/
def minimalCredential (meta : Metadata) (k v : String) : VerifiableCredential :=
  { Metadata := meta, CredentialSubject := [(k, v)], ClaimProofs := [], Proof := none }

/-- The proof options `Build` passes to every signing call. -/
def buildOptions : ProofOptions :=
  { ProofPurpose := AssertionMethodPurpose }

/-- The per-claim signing loop of `Builder.Build`: sign a minimal credential
for each claim, collecting claim-name to claim-proof; the first failure
aborts the whole loop. -/
def signClaims (env : CredSignEnv) (suite : SignatureSuite) (signer : Signer)
    (meta : Metadata) :
    List (String × String) → Except String (List (String × Proof))
  | [] => .ok []
  | (k, v) :: rest =>
    match SignatureSuite.SignS (credInst env) suite (minimalCredential meta k v)
        signer buildOptions with
    | .error e => .error e
    | .ok signed =>
      match signClaims env suite signer meta rest with
      | .error e => .error e
      | .ok ps => .ok ((k, signed.Proof.getD default) :: ps)

/-- The body of `Builder.Build` after validation and suite resolution: build
the claims map, sign every claim, assemble the full credential and sign it as
a whole.  Note the Go `return cred, suite.Sign(cred, ...)` tail: when the
aggregate signing fails the (non-nil) assembled credential is returned
together with the error. -/
def buildWithSuite (env : CredSignEnv) (suite : SignatureSuite)
    (signer : Signer) (meta : Metadata) (subjectDID : String)
    (data : List (String × String)) :
    Option VerifiableCredential × Option String :=
  let credSubjects := credSubjectsOf subjectDID data
  match signClaims env suite signer meta credSubjects with
  | .error e => (none, some e)
  | .ok claimProofs =>
    let cred : VerifiableCredential :=
      { Metadata := meta, CredentialSubject := credSubjects,
        ClaimProofs := claimProofs, Proof := none }
    match SignatureSuite.SignS (credInst env) suite cred signer buildOptions with
    | .error e => (some cred, some e)
    | .ok signed => (some signed, none)

/-- Modelled from the spec: the error of the external field-validation
collaborator (spec sections 4.5 and 6), which rejects builders missing a
required input before any cryptographic work. -/
def requiredFieldErr : String := "missing required field"

/-- `Builder.Build`: validate required inputs, resolve the signing suite for
(signature type, V2) via the credential-proof registry, then assemble and
sign (validation and the `GetSuiteForCredentials` call are modelled from the
spec, see `requiredFieldErr` and
`SignatureSuiteFactory.GetSuiteForCredentials`). -/
def Build (env : CredSignEnv) (b : Builder) :
    Option VerifiableCredential × Option String :=
  match b.Metadata, b.Signer with
  | some meta, some signer =>
    if b.SubjectDID = "" then (none, some requiredFieldErr)
    else
      match SignatureSuiteFactory.GetSuiteForCredentials SignatureSuites
          b.SignatureType .V2 with
      | .error e => (none, some e)
      | .ok suite => buildWithSuite env suite signer meta b.SubjectDID b.Data
  | _, _ => (none, some requiredFieldErr)

/-- The proof attached by a successful suite-level Sign on a credential has
the suite's signature type, and the result differs from the input only in
its proof slot. -/
theorem signS_cred_shape (env : CredSignEnv) (suite : SignatureSuite)
    (d : VerifiableCredential) (signer : Signer) (options : ProofOptions)
    (signed : VerifiableCredential)
    (h : SignatureSuite.SignS (credInst env) suite d signer options = .ok signed) :
    ∃ pf, signed = { d with Proof := some pf } ∧ pf.type = suite.TypeOf := by
  induction suite generalizing signed with
  | ld s =>
    rcases hsg : signer.sign s.KeyType s.SignatureType
        (runDigest (credInst env) s.MessageDigest
          (runCanonicalizer (credInst env) s.Canonicalizer
            (runMarshaler (credInst env) s.Marshaler
              ((credInst env).setProof d (some (makeProofSkeleton s.ProofFactory
                s.SignatureType signer.keyId (credInst env).now
                (runOptionsAppender (credInst env) s.OptionsAppender))))))) with e | sg
    · rw [show SignatureSuite.SignS (credInst env) (.ld s) d signer options =
          s.SignLD (credInst env) d signer options from rfl,
        LDSignatureSuite.SignLD, hsg] at h
      exact absurd h (by simp)
    · rw [show SignatureSuite.SignS (credInst env) (.ld s) d signer options =
          s.SignLD (credInst env) d signer options from rfl,
        LDSignatureSuite.SignLD, hsg] at h
      rw [Except.ok.injEq] at h
      refine ⟨_, h.symm, ?_⟩
      cases hp : s.ProofFactory <;> simp [makeProofSkeleton, hp,
        SignatureSuite.TypeOf, LDSignatureSuite.TypeOf]
  | composite m b ihm ihb => exact ihm signed h

/-- With a signer that always succeeds, every suite-level Sign succeeds. -/
theorem signS_ok_of_signer {D : Type} (inst : ProvableInst D)
    (suite : SignatureSuite) (d : D) (signer : Signer) (options : ProofOptions)
    (hs : ∀ kt st dg, ∃ sg, signer.sign kt st dg = .ok sg) :
    ∃ signed, SignatureSuite.SignS inst suite d signer options = .ok signed := by
  induction suite generalizing d with
  | ld s =>
    obtain ⟨sg, hsg⟩ := hs s.KeyType s.SignatureType
      (runDigest inst s.MessageDigest (runCanonicalizer inst s.Canonicalizer
        (runMarshaler inst s.Marshaler (inst.setProof d
          (some (makeProofSkeleton s.ProofFactory s.SignatureType signer.keyId
            inst.now (runOptionsAppender inst s.OptionsAppender)))))))
    refine ⟨inst.setProof d
        (some { makeProofSkeleton s.ProofFactory s.SignatureType signer.keyId
          inst.now (runOptionsAppender inst s.OptionsAppender) with
          signatureValue := sg }), ?_⟩
    show (match signer.sign s.KeyType s.SignatureType _ with
      | .error e => Except.error e
      | .ok sig => Except.ok (inst.setProof d
          (some { makeProofSkeleton s.ProofFactory s.SignatureType signer.keyId
            inst.now (runOptionsAppender inst s.OptionsAppender) with
            signatureValue := sig }))) = _
    rw [hsg]
  | composite m b ihm ihb => exact ihm d

/-- C9: `Build` resolves its signing suite as the credential-proof registry's
entry for (the builder's signature type, V2): when that lookup fails, `Build`
returns the lookup's error and no credential; when it succeeds, the rest of
`Build` runs with exactly that suite and any credential built successfully
carries an aggregate proof of that suite's type. -/
theorem build_resolves_credential_suite (env : CredSignEnv) (b : Builder)
    (meta : Metadata) (signer : Signer)
    (hmeta : b.Metadata = some meta) (hsigner : b.Signer = some signer)
    (hdid : b.SubjectDID ≠ "") :
    (∀ e, SignatureSuiteFactory.GetSuiteForCredentials SignatureSuites
        b.SignatureType .V2 = .error e → Build env b = (none, some e)) ∧
    (∀ suite, SignatureSuiteFactory.GetSuiteForCredentials SignatureSuites
        b.SignatureType .V2 = .ok suite →
      Build env b = buildWithSuite env suite signer meta b.SubjectDID b.Data ∧
      ∀ c, Build env b = (some c, none) →
        c.Proof.map Proof.type = some suite.TypeOf) := by
  constructor
  · intro e he
    simp [Build, hmeta, hsigner, hdid, he]
  · intro suite hsu
    have hB : Build env b =
        buildWithSuite env suite signer meta b.SubjectDID b.Data := by
      simp [Build, hmeta, hsigner, hdid, hsu]
    refine ⟨hB, fun c hc => ?_⟩
    rw [hB] at hc
    rcases hsc : signClaims env suite signer meta
        (credSubjectsOf b.SubjectDID b.Data) with e | claimProofs
    · rw [show buildWithSuite env suite signer meta b.SubjectDID b.Data =
          (none, some e) by simp [buildWithSuite, hsc]] at hc
      exact absurd hc (by simp)
    · rcases hag : SignatureSuite.SignS (credInst env) suite
          { Metadata := meta, CredentialSubject := credSubjectsOf b.SubjectDID b.Data,
            ClaimProofs := claimProofs, Proof := none } signer buildOptions
          with e | signed
      · rw [show buildWithSuite env suite signer meta b.SubjectDID b.Data =
            (some { Metadata := meta,
                    CredentialSubject := credSubjectsOf b.SubjectDID b.Data,
                    ClaimProofs := claimProofs, Proof := none }, some e)
            by simp [buildWithSuite, hsc, hag]] at hc
        exact absurd hc (by simp)
      · rw [show buildWithSuite env suite signer meta b.SubjectDID b.Data =
            (some signed, none) by simp [buildWithSuite, hsc, hag]] at hc
        have hcs : signed = c := by simpa using hc
        subst hcs
        obtain ⟨pf, hshape, hty⟩ :=
          signS_cred_shape env suite _ signer buildOptions signed hag
        rw [hshape]
        simp [hty]

/-- A builder asking for EcdsaSecp256k1 credential signatures with a
non-empty claims mapping; the credential tables have no Secp256k1 entry. -/
def builderSecpData : Builder :=
  { SubjectDID := "did:work:subject", Data := [("a", "1")],
    Metadata := some mW, Signer := some signerRT,
    SignatureType := .EcdsaSecp256k1SignatureType }

/-- Witness for `build_resolves_credential_suite`: the Secp256k1 builder
fails with the registry's unsupported-signature-type error. -/
theorem build_resolves_credential_suite_witness :
    Build envW builderSecpData = (none, some "unsupported signature type") :=
  (build_resolves_credential_suite envW builderSecpData mW signerRT rfl rfl
    (by decide)).1 "unsupported signature type" rfl

/-- A signer that refuses exactly the aggregate digest of the one-claim
credential assembled by `builderAggFail` and succeeds on everything else. -/
def signerAggFail : Signer :=
  { keyId := "did:work:abc-key-1",
    sign := fun _ _ dg =>
      if dg = "1|id=did:work:subject;" then .error "remote signer unavailable"
      else .ok ("SIG." ++ dg) }

/-- A builder whose per-claim signings succeed but whose final aggregate
signing fails. -/
def builderAggFail : Builder :=
  { SubjectDID := "did:work:subject", Data := [], Metadata := some mW,
    Signer := some signerAggFail, SignatureType := .Ed25519SignatureType }

/-- C3 counterexample: when the final aggregate signing fails, `Build`
returns a non-nil credential together with the error, so the credential
result is not nil whenever the error is non-nil. -/
theorem build_partial_credential_counterexample :
    (Build envW builderAggFail).2.isSome ∧
    (Build envW builderAggFail).1 ≠ none := by
  decide

/-- C3 as amended, stage by stage: a validation failure, a suite-lookup
failure or a per-claim signing failure makes `Build` return that stage's
error and a nil credential (fail-fast); an aggregate-signing failure makes
`Build` return its error together with the non-nil assembled credential,
which carries the signed claim proofs and no aggregate proof; and every
error outcome is one of these two shapes. -/
theorem build_error_credential (env : CredSignEnv) (b : Builder) :
    ((b.Metadata = none ∨ b.Signer = none ∨ b.SubjectDID = "") →
      Build env b = (none, some requiredFieldErr)) ∧
    (∀ meta signer e, b.Metadata = some meta → b.Signer = some signer →
      b.SubjectDID ≠ "" →
      SignatureSuiteFactory.GetSuiteForCredentials SignatureSuites
        b.SignatureType .V2 = .error e →
      Build env b = (none, some e)) ∧
    (∀ meta signer suite e, b.Metadata = some meta → b.Signer = some signer →
      b.SubjectDID ≠ "" →
      SignatureSuiteFactory.GetSuiteForCredentials SignatureSuites
        b.SignatureType .V2 = .ok suite →
      signClaims env suite signer meta (credSubjectsOf b.SubjectDID b.Data) =
        .error e →
      Build env b = (none, some e)) ∧
    (∀ meta signer suite claimProofs e, b.Metadata = some meta →
      b.Signer = some signer → b.SubjectDID ≠ "" →
      SignatureSuiteFactory.GetSuiteForCredentials SignatureSuites
        b.SignatureType .V2 = .ok suite →
      signClaims env suite signer meta (credSubjectsOf b.SubjectDID b.Data) =
        .ok claimProofs →
      SignatureSuite.SignS (credInst env) suite
        { Metadata := meta, CredentialSubject := credSubjectsOf b.SubjectDID b.Data,
          ClaimProofs := claimProofs, Proof := none } signer buildOptions =
        .error e →
      Build env b =
        (some { Metadata := meta,
                CredentialSubject := credSubjectsOf b.SubjectDID b.Data,
                ClaimProofs := claimProofs, Proof := none }, some e)) ∧
    ((Build env b).2.isSome →
      (Build env b).1 = none ∨
      ∃ c, (Build env b).1 = some c ∧ c.Proof = none) := by
  refine ⟨?_, ?_, ?_, ?_, ?_⟩
  · intro h
    rcases hM : b.Metadata with _ | meta
    · simp [Build, hM]
    rcases hS : b.Signer with _ | signer
    · simp [Build, hM, hS]
    rcases h with h | h | h
    · rw [hM] at h
      exact Option.noConfusion h
    · rw [hS] at h
      exact Option.noConfusion h
    · simp [Build, hM, hS, h]
  · intro meta signer e hM hS hdid hlk
    simp [Build, hM, hS, hdid, hlk]
  · intro meta signer suite e hM hS hdid hlk hsc
    rw [show Build env b =
        buildWithSuite env suite signer meta b.SubjectDID b.Data
        by simp [Build, hM, hS, hdid, hlk]]
    simp [buildWithSuite, hsc]
  · intro meta signer suite claimProofs e hM hS hdid hlk hsc hag
    rw [show Build env b =
        buildWithSuite env suite signer meta b.SubjectDID b.Data
        by simp [Build, hM, hS, hdid, hlk]]
    simp [buildWithSuite, hsc, hag]
  · intro h
    rcases hM : b.Metadata with _ | meta
    · left
      simp [Build, hM]
    rcases hS : b.Signer with _ | signer
    · left
      simp [Build, hM, hS]
    by_cases hdid : b.SubjectDID = ""
    · left
      simp [Build, hM, hS, hdid]
    rcases hlk : SignatureSuiteFactory.GetSuiteForCredentials SignatureSuites
        b.SignatureType .V2 with e | suite
    · left
      simp [Build, hM, hS, hdid, hlk]
    have hB : Build env b =
        buildWithSuite env suite signer meta b.SubjectDID b.Data := by
      simp [Build, hM, hS, hdid, hlk]
    rw [hB] at h ⊢
    rcases hsc : signClaims env suite signer meta
        (credSubjectsOf b.SubjectDID b.Data) with e | claimProofs
    · left
      simp [buildWithSuite, hsc]
    rcases hag : SignatureSuite.SignS (credInst env) suite
        { Metadata := meta, CredentialSubject := credSubjectsOf b.SubjectDID b.Data,
          ClaimProofs := claimProofs, Proof := none } signer buildOptions
        with e | signed
    · right
      exact ⟨{ Metadata := meta,
               CredentialSubject := credSubjectsOf b.SubjectDID b.Data,
               ClaimProofs := claimProofs, Proof := none },
        by simp [buildWithSuite, hsc, hag], rfl⟩
    · exfalso
      rw [show buildWithSuite env suite signer meta b.SubjectDID b.Data =
          (some signed, none) by simp [buildWithSuite, hsc, hag]] at h
      simp at h

/-- The claim proof `builderAggFail`'s per-claim loop produces for the id
claim (its signer succeeds on the minimal credential's digest). -/
def claimProofAggFail : Proof :=
  { type := .Ed25519SignatureType, created := "2020-01-02T00:00:00Z",
    creator := none, verificationMethod := some "did:work:abc-key-1",
    nonce := "nonce-0", signatureValue := "SIG.0|id=did:work:subject;" }

/-- Witness for `build_error_credential` through the aggregate-failure
stage: the assembled one-claim credential is returned, with its claim proof
and no aggregate proof, alongside the aggregate signer's error. -/
theorem build_error_credential_witness :
    Build envW builderAggFail =
      (some { Metadata := mW,
              CredentialSubject :=
                credSubjectsOf builderAggFail.SubjectDID builderAggFail.Data,
              ClaimProofs := [(SubjectIDAttribute, claimProofAggFail)],
              Proof := none },
       some "remote signer unavailable") :=
  (build_error_credential envW builderAggFail).2.2.2.1 mW signerAggFail
    ed25519SignatureSuiteV2B64 [(SubjectIDAttribute, claimProofAggFail)]
    "remote signer unavailable" rfl rfl (by decide) rfl rfl rfl
/-- A builder with every required input present, an always-succeeding signer
and an empty claims mapping, but the EcdsaSecp256k1 signature type. -/
def builderSecpEmpty : Builder :=
  { SubjectDID := "did:work:subject", Data := [], Metadata := some mW,
    Signer := some signerRT, SignatureType := .EcdsaSecp256k1SignatureType }

/-- C10 counterexample: all of SubjectDID, Metadata, Signer and SignatureType
are present and the signer succeeds, yet `Build` fails, because the
credential-proof registry has no V2 entry for EcdsaSecp256k1. -/
theorem build_empty_data_counterexample :
    Build envW builderSecpEmpty = (none, some "unsupported signature type") := by
  decide

/-- C10 as amended: for every builder whose required inputs are present,
whose signature type has a V2 credential-proof suite, and whose claims
mapping is empty, `Build` succeeds given a succeeding signer and returns a
credential whose subject is exactly the id claim, with exactly one claim
proof keyed by the id attribute, plus the aggregate proof. -/
theorem build_empty_data (env : CredSignEnv) (b : Builder) (meta : Metadata)
    (signer : Signer)
    (hmeta : b.Metadata = some meta) (hsigner : b.Signer = some signer)
    (hdid : b.SubjectDID ≠ "") (hdata : b.Data = [])
    (hsupp : ∃ suite, SignatureSuiteFactory.GetSuiteForCredentials
      SignatureSuites b.SignatureType .V2 = .ok suite)
    (hs : ∀ kt st dg, ∃ sg, signer.sign kt st dg = .ok sg) :
    ∃ c, Build env b = (some c, none) ∧
      c.CredentialSubject = [(SubjectIDAttribute, b.SubjectDID)] ∧
      keysOf c.ClaimProofs = [SubjectIDAttribute] ∧
      c.Proof.isSome = true := by
  obtain ⟨suite, hlk⟩ := hsupp
  have hB : Build env b =
      buildWithSuite env suite signer meta b.SubjectDID b.Data := by
    simp [Build, hmeta, hsigner, hdid, hlk]
  obtain ⟨s1, hs1⟩ := signS_ok_of_signer (credInst env) suite
    (minimalCredential meta SubjectIDAttribute b.SubjectDID) signer buildOptions hs
  have hsc : signClaims env suite signer meta
      [(SubjectIDAttribute, b.SubjectDID)] =
      .ok [(SubjectIDAttribute, s1.Proof.getD default)] := by
    simp only [signClaims, hs1]
  obtain ⟨s2, hs2⟩ := signS_ok_of_signer (credInst env) suite
    { Metadata := meta, CredentialSubject := [(SubjectIDAttribute, b.SubjectDID)],
      ClaimProofs := [(SubjectIDAttribute, s1.Proof.getD default)], Proof := none }
    signer buildOptions hs
  obtain ⟨pf2, hsh2, _⟩ := signS_cred_shape env suite _ signer buildOptions s2 hs2
  refine ⟨s2, ?_, ?_, ?_, ?_⟩
  · rw [hB, hdata]
    have hcs : credSubjectsOf b.SubjectDID [] =
        [(SubjectIDAttribute, b.SubjectDID)] := rfl
    simp only [buildWithSuite, hcs, hsc, hs2]
  · rw [hsh2]
  · rw [hsh2]
    rfl
  · rw [hsh2]
    rfl

/-- A builder with an empty claims mapping and a supported signature type. -/
def builderEmptyData : Builder :=
  { SubjectDID := "did:work:subject", Data := [], Metadata := some mW,
    Signer := some signerRT, SignatureType := .Ed25519SignatureType }

/-- Witness for `build_empty_data` at a concrete Ed25519 builder. -/
theorem build_empty_data_witness :
    ∃ c, Build envW builderEmptyData = (some c, none) ∧
      c.CredentialSubject = [(SubjectIDAttribute, builderEmptyData.SubjectDID)] ∧
      keysOf c.ClaimProofs = [SubjectIDAttribute] ∧
      c.Proof.isSome = true :=
  build_empty_data envW builderEmptyData mW signerRT rfl rfl (by decide) rfl
    ⟨ed25519SignatureSuiteV2B64, rfl⟩ (fun _ _ dg => ⟨"SIG." ++ dg, rfl⟩)

/-- First-defined of two optional values (the effect of Go's map override). -/
def firstSome {α : Type} : Option α → Option α → Option α
  | some x, _ => some x
  | none, b => b

/-- Keys of the empty association list. -/
theorem keysOf_nil {α : Type} : keysOf ([] : List (String × α)) = [] := rfl

/-- Keys of a non-empty association list. -/
theorem keysOf_cons {α : Type} (p : String × α) (l : List (String × α)) :
    keysOf (p :: l) = p.1 :: keysOf l := rfl

/-- Lookup after a Go-map insertion. -/
theorem lookupKV_insertKV {α : Type} (m : List (String × α)) (k k' : String)
    (v : α) :
    lookupKV (insertKV m k v) k' = if k = k' then some v else lookupKV m k' := by
  induction m with
  | nil => rfl
  | cons hd tl ih =>
    obtain ⟨k₀, v₀⟩ := hd
    by_cases h0 : k₀ = k
    · subst h0
      by_cases h1 : k₀ = k'
      · simp [insertKV, lookupKV, h1]
      · simp [insertKV, lookupKV, h1]
    · by_cases h1 : k₀ = k'
      · have hk : ¬k = k' := fun h => h0 (h1.trans h.symm)
        have hk2 : ¬k' = k := fun h => h0 (h1.trans h)
        simp [insertKV, lookupKV, h0, h1, hk, hk2]
      · simp [insertKV, lookupKV, h0, h1, ih]

/-- Keys after a Go-map insertion: unchanged when the key is present,
appended otherwise. -/
theorem keysOf_insertKV {α : Type} (m : List (String × α)) (k : String)
    (v : α) :
    keysOf (insertKV m k v) =
      if k ∈ keysOf m then keysOf m else keysOf m ++ [k] := by
  induction m with
  | nil => simp [insertKV, keysOf]
  | cons hd tl ih =>
    obtain ⟨k₀, v₀⟩ := hd
    by_cases h0 : k₀ = k
    · subst h0
      simp [insertKV, keysOf_cons, List.mem_cons]
    · have hk : ¬k = k₀ := fun h => h0 h.symm
      rw [insertKV.eq_def]
      simp only [if_neg h0]
      simp only [keysOf_cons, ih]
      by_cases h1 : k ∈ keysOf tl <;> simp [h1, List.mem_cons, hk]

/-- Go-map insertion preserves key uniqueness. -/
theorem nodup_keysOf_insertKV {α : Type} (m : List (String × α)) (k : String)
    (v : α) (h : (keysOf m).Nodup) : (keysOf (insertKV m k v)).Nodup := by
  rw [keysOf_insertKV]
  by_cases h1 : k ∈ keysOf m
  · simpa [h1] using h
  · simp [h1, List.nodup_append, h]

/-- Folding Go-map insertions preserves key uniqueness of the accumulator. -/
theorem nodup_keysOf_foldl_insert (data : List (String × String))
    (acc : List (String × String)) (h : (keysOf acc).Nodup) :
    (keysOf (data.foldl (fun m kv => insertKV m kv.1 kv.2) acc)).Nodup := by
  induction data generalizing acc with
  | nil => exact h
  | cons hd tl ih => exact ih _ (nodup_keysOf_insertKV _ _ _ h)

/-- The `credSubjects` map always has unique keys. -/
theorem nodup_keysOf_credSubjectsOf (did : String)
    (data : List (String × String)) :
    (keysOf (credSubjectsOf did data)).Nodup :=
  nodup_keysOf_foldl_insert data _ (by simp [keysOf])

/-- Lookup misses keys that are absent. -/
theorem lookupKV_eq_none {α : Type} (m : List (String × α)) (k : String)
    (h : k ∉ keysOf m) : lookupKV m k = none := by
  induction m with
  | nil => rfl
  | cons hd tl ih =>
    obtain ⟨k₀, v₀⟩ := hd
    rw [keysOf_cons, List.mem_cons, not_or] at h
    rw [lookupKV.eq_def]
    simp only [if_neg (fun hh : k₀ = k => h.1 hh.symm)]
    exact ih h.2

/-- Lookup in a fold of Go-map insertions over data with unique keys: the
data wins over the accumulator. -/
theorem lookup_foldl_insert (data : List (String × String))
    (acc : List (String × String)) (k : String)
    (hnd : (keysOf data).Nodup) :
    lookupKV (data.foldl (fun m kv => insertKV m kv.1 kv.2) acc) k =
      firstSome (lookupKV data k) (lookupKV acc k) := by
  induction data generalizing acc with
  | nil => rfl
  | cons hd tl ih =>
    obtain ⟨k₀, v₀⟩ := hd
    rw [keysOf_cons, List.nodup_cons] at hnd
    show lookupKV (tl.foldl (fun m kv => insertKV m kv.1 kv.2)
        (insertKV acc k₀ v₀)) k = _
    rw [ih _ hnd.2, lookupKV_insertKV]
    by_cases h1 : k₀ = k
    · subst h1
      rw [lookupKV_eq_none tl _ hnd.1]
      simp [lookupKV, firstSome]
    · simp [lookupKV, h1, firstSome]

/-- The credential-subject map of `Build`: data entries override the
accumulator, so the id claim is the subject identifier only when the data has
no "id" entry. -/
theorem lookupKV_credSubjectsOf (did : String)
    (data : List (String × String)) (hnd : (keysOf data).Nodup) (k : String) :
    lookupKV (credSubjectsOf did data) k =
      if k = SubjectIDAttribute then some ((lookupKV data k).getD did)
      else lookupKV data k := by
  rw [credSubjectsOf, lookup_foldl_insert data _ k hnd]
  by_cases h : k = SubjectIDAttribute
  · subst h
    rcases hl : lookupKV data SubjectIDAttribute with _ | v <;>
      simp [firstSome, lookupKV, hl]
  · have h2 : ¬SubjectIDAttribute = k := fun hh => h hh.symm
    rcases hl : lookupKV data k with _ | v <;>
      simp [firstSome, lookupKV, h, h2, hl]

/-- A successful per-claim signing loop produces exactly one proof per input
claim, keyed identically and in the same order. -/
theorem signClaims_keys (env : CredSignEnv) (suite : SignatureSuite)
    (signer : Signer) (meta : Metadata) (l : List (String × String))
    (ps : List (String × Proof))
    (h : signClaims env suite signer meta l = .ok ps) :
    keysOf ps = keysOf l := by
  induction l generalizing ps with
  | nil =>
    simp only [signClaims] at h
    rw [Except.ok.injEq] at h
    subst h
    rfl
  | cons hd tl ih =>
    obtain ⟨k, v⟩ := hd
    rcases h1 : SignatureSuite.SignS (credInst env) suite
        (minimalCredential meta k v) signer buildOptions with e | signed
    · simp only [signClaims, h1] at h
      exact Except.noConfusion h
    · rcases h2 : signClaims env suite signer meta tl with e | ps'
      · simp only [signClaims, h1, h2] at h
        exact Except.noConfusion h
      · simp only [signClaims, h1, h2] at h
        rw [Except.ok.injEq] at h
        subst h
        rw [keysOf_cons, keysOf_cons, ih ps' h2]

/-- Every proof in a successful per-claim signing loop is the proof of the
minimal single-claim credential signed with the resolved suite. -/
theorem signClaims_lookup (env : CredSignEnv) (suite : SignatureSuite)
    (signer : Signer) (meta : Metadata) (l : List (String × String))
    (ps : List (String × Proof))
    (h : signClaims env suite signer meta l = .ok ps) (k : String) (pf : Proof)
    (hl : lookupKV ps k = some pf) :
    ∃ v signed, lookupKV l k = some v ∧
      SignatureSuite.SignS (credInst env) suite (minimalCredential meta k v)
        signer buildOptions = .ok signed ∧
      pf = signed.Proof.getD default := by
  induction l generalizing ps with
  | nil =>
    simp only [signClaims] at h
    rw [Except.ok.injEq] at h
    subst h
    simp [lookupKV] at hl
  | cons hd tl ih =>
    obtain ⟨k₀, v₀⟩ := hd
    rcases h1 : SignatureSuite.SignS (credInst env) suite
        (minimalCredential meta k₀ v₀) signer buildOptions with e | signed₀
    · simp only [signClaims, h1] at h
      exact Except.noConfusion h
    · rcases h2 : signClaims env suite signer meta tl with e | ps'
      · simp only [signClaims, h1, h2] at h
        exact Except.noConfusion h
      · simp only [signClaims, h1, h2] at h
        rw [Except.ok.injEq] at h
        subst h
        simp only [lookupKV] at hl
        by_cases hk : k₀ = k
        · subst hk
          rw [if_pos rfl] at hl
          rw [Option.some.injEq] at hl
          exact ⟨v₀, signed₀, by simp [lookupKV], h1, hl.symm⟩
        · rw [if_neg hk] at hl
          obtain ⟨v, sg, hv, hsg, hpf⟩ := ih ps' h2 hl
          exact ⟨v, sg, by simp [lookupKV, hk, hv], hsg, hpf⟩

/-- A builder whose data carries its own "id" claim, different from the
subject identifier. -/
def builderIdOverride : Builder :=
  { SubjectDID := "did:work:subject", Data := [("id", "did:work:evil")],
    Metadata := some mW, Signer := some signerRT,
    SignatureType := .Ed25519SignatureType }

/-- C4 counterexample: `Build` succeeds, but the credential subject's id
claim is the data's "id" value, not the builder's subject identifier — the
range-and-assign loop overwrites the injected id claim. -/
theorem build_id_claim_counterexample :
    (Build envW builderIdOverride).2 = none ∧
    ((Build envW builderIdOverride).1.map
      (fun c => lookupKV c.CredentialSubject SubjectIDAttribute)) =
      some (some "did:work:evil") ∧
    ((Build envW builderIdOverride).1.map
      (fun c => lookupKV c.CredentialSubject SubjectIDAttribute)) ≠
      some (some builderIdOverride.SubjectDID) := by
  decide

/-- C4 as amended: a successful `Build` returns a credential whose subject is
the input claims plus an id claim that is the subject identifier unless the
input claims already carry an "id" entry (which overrides it); the
claim-proofs mapping has exactly one entry per subject key, each produced by
signing the minimal single-claim credential with the resolved suite; and the
credential carries an aggregate proof produced by signing the full credential
(all claims and all claim proofs) with that suite. -/
theorem build_success_structure (env : CredSignEnv) (b : Builder)
    (c : VerifiableCredential) (hnodup : (keysOf b.Data).Nodup)
    (hb : Build env b = (some c, none)) :
    (∀ k, lookupKV c.CredentialSubject k =
      if k = SubjectIDAttribute then some ((lookupKV b.Data k).getD b.SubjectDID)
      else lookupKV b.Data k) ∧
    keysOf c.ClaimProofs = keysOf c.CredentialSubject ∧
    (keysOf c.CredentialSubject).Nodup ∧
    (∃ meta signer suite,
      b.Metadata = some meta ∧ b.Signer = some signer ∧
      SignatureSuiteFactory.GetSuiteForCredentials SignatureSuites
        b.SignatureType .V2 = .ok suite ∧
      c.Metadata = meta ∧
      (∀ k pf, lookupKV c.ClaimProofs k = some pf →
        ∃ v signed, lookupKV c.CredentialSubject k = some v ∧
          SignatureSuite.SignS (credInst env) suite (minimalCredential meta k v)
            signer buildOptions = .ok signed ∧
          pf = signed.Proof.getD default) ∧
      c.Proof.isSome = true ∧
      SignatureSuite.SignS (credInst env) suite { c with Proof := none }
        signer buildOptions = .ok c) := by
  rcases hM : b.Metadata with _ | meta
  · rw [show Build env b = (none, some requiredFieldErr) by simp [Build, hM]] at hb
    exact absurd hb (by simp)
  rcases hS : b.Signer with _ | signer
  · rw [show Build env b = (none, some requiredFieldErr)
        by simp [Build, hM, hS]] at hb
    exact absurd hb (by simp)
  by_cases hdid : b.SubjectDID = ""
  · rw [show Build env b = (none, some requiredFieldErr)
        by simp [Build, hM, hS, hdid]] at hb
    exact absurd hb (by simp)
  rcases hlk : SignatureSuiteFactory.GetSuiteForCredentials SignatureSuites
      b.SignatureType .V2 with e | suite
  · rw [show Build env b = (none, some e) by simp [Build, hM, hS, hdid, hlk]] at hb
    exact absurd hb (by simp)
  have hB : Build env b =
      buildWithSuite env suite signer meta b.SubjectDID b.Data := by
    simp [Build, hM, hS, hdid, hlk]
  rw [hB] at hb
  rcases hsc : signClaims env suite signer meta
      (credSubjectsOf b.SubjectDID b.Data) with e | claimProofs
  · rw [show buildWithSuite env suite signer meta b.SubjectDID b.Data =
        (none, some e) by simp [buildWithSuite, hsc]] at hb
    exact absurd hb (by simp)
  rcases hag : SignatureSuite.SignS (credInst env) suite
      { Metadata := meta, CredentialSubject := credSubjectsOf b.SubjectDID b.Data,
        ClaimProofs := claimProofs, Proof := none } signer buildOptions
      with e | signed
  · rw [show buildWithSuite env suite signer meta b.SubjectDID b.Data =
        (some { Metadata := meta,
                CredentialSubject := credSubjectsOf b.SubjectDID b.Data,
                ClaimProofs := claimProofs, Proof := none }, some e)
        by simp [buildWithSuite, hsc, hag]] at hb
    exact absurd hb (by simp)
  rw [show buildWithSuite env suite signer meta b.SubjectDID b.Data =
      (some signed, none) by simp [buildWithSuite, hsc, hag]] at hb
  have hcs : signed = c := by simpa using hb
  subst hcs
  obtain ⟨pf, hshape, _⟩ :=
    signS_cred_shape env suite _ signer buildOptions signed hag
  subst hshape
  refine ⟨fun k => lookupKV_credSubjectsOf b.SubjectDID b.Data hnodup k,
    signClaims_keys env suite signer meta _ _ hsc,
    nodup_keysOf_credSubjectsOf b.SubjectDID b.Data,
    meta, signer, suite, rfl, rfl, rfl, rfl,
    fun k pf0 hpl => signClaims_lookup env suite signer meta _ _ hsc k pf0 hpl,
    rfl, hag⟩

/-- A builder with one ordinary claim and a JCSEd25519 signature type. -/
def builderTwoClaims : Builder :=
  { SubjectDID := "did:work:subject", Data := [("a", "1")],
    Metadata := some mW, Signer := some signerRT,
    SignatureType := .JCSEdSignatureType }

/-- Witness for `build_success_structure` at a concrete successful build. -/
theorem build_success_structure_witness :
    keysOf (((Build envW builderTwoClaims).1.getD default).ClaimProofs) =
      keysOf (((Build envW builderTwoClaims).1.getD default).CredentialSubject) :=
  (build_success_structure envW builderTwoClaims
    ((Build envW builderTwoClaims).1.getD default) (by decide) (by decide)).2.1
